import Mathlib

/-!
Shallow embedding of the iFitBot v2 core (TypeScript) in Lean 4.

Embedded from the source:
- the data model of `src/unnamed/part_001` (`ReportData`, `Timeline`, ...);
- the trainer-assignment logic of `generateWorkoutPlan` in
  `src/unnamed/part_000` (weighted pool) and its variant in
  `src/services/geminiService.ts` (uniform draw, goal ignored);
- the error handling of `generateAssessmentReport` in both files.

The nutrition/fat-loss arithmetic (BMR, TDEE, deficit, realism adjustment)
has no executable implementation in the repository: it exists only as prompt
text instructing a generative model.  Those components are therefore
modelled from the spec, as marked on each definition.
-/

namespace IFitBot

/-- Gender, from the `QuizData` interface in `src/unnamed/part_001`
(a union of the literals male and female). -/
inductive Gender where
  | male
  | female
deriving DecidableEq

/-- Activity level, from the `QuizData` interface in `src/unnamed/part_001`
(the `dailyActivity` field, a union of exactly four literals). -/
inductive ActivityLevel where
  | sedentary
  | lightly_active
  | moderately_active
  | very_active
deriving DecidableEq

/-- Band status, from `src/unnamed/part_001`
(`bf_status: "below" | "within" | "above"`). -/
inductive BandStatus where
  | below
  | within
  | above
deriving DecidableEq

/-- Flag severity, from the `Flag` interface in `src/unnamed/part_001`. -/
inductive Severity where
  | low
  | medium
  | high
deriving DecidableEq

/-- The `Flag` interface of `src/unnamed/part_001`. -/
structure Flag where
  issue : String
  severity : Severity
  why : String
deriving DecidableEq

/-- The `numbers` sub-object of `ReportData` in `src/unnamed/part_001`. -/
structure Numbers where
  current_maintenance_calories : ℚ
  daily_calorie_deficit_needed : ℚ
  target_intake_kcal : ℚ
  target_burn_per_day_activity : ℚ
deriving DecidableEq

/-- The `timeline` sub-object of `ReportData` in `src/unnamed/part_001`;
`adjusted_timeline_weeks?: number` is optional, hence `Option ℚ`. -/
structure Timeline where
  excess_fat_kg : ℚ
  weeks_to_goal : ℚ
  projected_loss_per_week_kg : ℚ
  is_timeline_realistic : Bool
  adjusted_timeline_weeks : Option ℚ
deriving DecidableEq

/-- The `nutrition_targets` sub-object of `ReportData` in
`src/unnamed/part_001`; the two ranges are `[number, number] | null`. -/
structure NutritionTargets where
  recommended_calories_kcal : ℚ
  protein_g : ℚ
  water_l : ℚ
  carbs_g_range : Option (ℚ × ℚ)
  fats_g_range : Option (ℚ × ℚ)
deriving DecidableEq

/-- The `body_comp` sub-object of `ReportData` in `src/unnamed/part_001`. -/
structure BodyComp where
  estimated_bf_percent : ℚ
  bf_ideal_band : ℚ × ℚ
  bf_status : BandStatus
  visual_analysis_notes : Option String
  estimated_tbw_percent : ℚ
  tbw_typical_band : ℚ × ℚ
  tbw_status : BandStatus
deriving DecidableEq

/-- The `ReportData` interface of `src/unnamed/part_001`. -/
structure ReportData where
  numbers : Numbers
  timeline : Timeline
  nutrition_targets : NutritionTargets
  body_comp : BodyComp
  flags : List Flag
  methodology : List String
  report_markdown : String
deriving DecidableEq

/-- Trainer identity, from the literal union
`"Athul" | "Athithiya" | "Saieel"` in `src/unnamed/part_000` and
`src/services/geminiService.ts`. -/
inductive TrainerName where
  | Athul
  | Athithiya
  | Saieel
deriving DecidableEq

/-- The `allTrainers` array of `generateWorkoutPlan`
(`src/unnamed/part_000`, lines 213-217, identical in
`src/services/geminiService.ts`): each trainer with its specialty tags. -/
def allTrainers : List (TrainerName × List String) :=
  [(.Athul, ["Weight Loss", "Lean Body"]),
   (.Athithiya, ["Lean Body", "Bodybuilding"]),
   (.Saieel, ["Weight Loss", "Bodybuilding"])]

/-- The `goalToSpecialtyMap` lookup of `generateWorkoutPlan`
(`src/unnamed/part_000`, lines 219-223): JS map indexing returns
`undefined` for unknown keys, modelled as `none`. -/
def goalToSpecialty (goal : String) : Option String :=
  if goal = "lose_weight" then some "Weight Loss"
  else if goal = "gain_muscle" then some "Bodybuilding"
  else if goal = "get_shredded" then some "Lean Body"
  else none

/-- The weighted-pool construction of `generateWorkoutPlan`
(`src/unnamed/part_000`, lines 230-237): each trainer is pushed
`specialistWeight = 5` times when its specialties include the target
specialty, `generalistWeight = 1` time otherwise. -/
def weightedPool (target : String) : List TrainerName :=
  allTrainers.flatMap fun t => List.replicate (if target ∈ t.2 then 5 else 1) t.1

/-- The pool `generateWorkoutPlan` draws from (`src/unnamed/part_000`,
lines 225-243): the weighted pool when the goal maps to a target
specialty, otherwise the plain three-trainer list.  An absent `quizData`
or goal (`userGoal ? ... : null`) yields no target specialty. -/
def trainerPool (goal : Option String) : List TrainerName :=
  match goal.bind goalToSpecialty with
  | some target => weightedPool target
  | none => allTrainers.map Prod.fst

/-- The draw of `generateWorkoutPlan` (`src/unnamed/part_000`, lines
239-243): `pool[Math.floor(Math.random() * pool.length)]`, with the
random source `u ∈ [0,1)` made explicit.  JS array indexing out of range
yields `undefined`, modelled as `none`. -/
def assignTrainer (goal : Option String) (u : ℚ) : Option TrainerName :=
  let pool := trainerPool goal
  pool[(⌊u * (pool.length : ℚ)⌋).toNat]?

/-- The trainer assignment of `generateWorkoutPlan` in
`src/services/geminiService.ts` (lines 146-154): the goal is never
consulted; the draw is `trainers[Math.floor(Math.random() * 3)]` over the
plain trainer-name list. -/
def assignTrainerV2 (goal : Option String) (u : ℚ) : Option TrainerName :=
  let trainers := allTrainers.map Prod.fst
  trainers[(⌊u * (trainers.length : ℚ)⌋).toNat]?

/-- Probability that a single uniform draw from `pool` (index
`⌊u · |pool|⌋` with `u` uniform on `[0,1)`) selects trainer `t`:
the relative multiplicity of `t` in the pool. -/
def drawProb (pool : List TrainerName) (t : TrainerName) : ℚ :=
  (pool.count t : ℚ) / (pool.length : ℚ)

/-- Modelled from the spec: the error taxonomy of §7 (the nutrition
arithmetic has no executable implementation in `src/`; it exists only as
prompt text in `src/unnamed/part_000`). -/
inductive CalcError where
  | InvalidActivityLevel
  | InvalidPeriod
  | UnsafeInputError
  | SchemaViolation
deriving DecidableEq

/-- Modelled from the spec: Mifflin-St Jeor BMR of §4.1, matching the
prompt text of `src/unnamed/part_000` (male: `10·w + 6.25·h − 5·a + 5`;
female: `10·w + 6.25·h − 5·a − 161`). -/
def bmr (g : Gender) (weight height age : ℚ) : ℚ :=
  match g with
  | .male => 10 * weight + 6.25 * height - 5 * age + 5
  | .female => 10 * weight + 6.25 * height - 5 * age - 161

/-- Modelled from the spec: the four activity multipliers of §4.1,
matching the prompt text of `src/unnamed/part_000`.  The `QuizData` type
restricts the level to exactly these four, so the multiplier is total. -/
def activityMultiplier : ActivityLevel → ℚ
  | .sedentary => 1.2
  | .lightly_active => 1.375
  | .moderately_active => 1.55
  | .very_active => 1.725

/-- Modelled from the spec: TDEE = BMR × activity multiplier (§4.1). -/
def tdee (g : Gender) (weight height age : ℚ) (lv : ActivityLevel) : ℚ :=
  bmr g weight height age * activityMultiplier lv

/-- Modelled from the spec: `excess_fat_kg = max(0, current − target)`
(§4.1), matching the prompt text of `src/unnamed/part_000`
("If negative/gaining muscle, set to 0"). -/
def excessFatKg (current target : ℚ) : ℚ :=
  max (current - target) 0

/-- Modelled from the spec: total energy gap = excess fat × 7700 kcal
(§4.1), matching the prompt text of `src/unnamed/part_000`. -/
def totalEnergyGap (excess_fat_kg : ℚ) : ℚ :=
  excess_fat_kg * 7700

/-- Modelled from the spec: the daily deficit
`total_energy_gap / (target_period_weeks × 7)` of §4.1, failing with
`InvalidPeriod` when `target_period_weeks ≤ 0`. -/
def dailyDeficitNeeded (gap weeks : ℚ) : Except CalcError ℚ :=
  if weeks ≤ 0 then .error .InvalidPeriod
  else .ok (gap / (weeks * 7))

/-- Modelled from the spec: the minimum safe intake of §4.2
(1200 kcal female, 1500 kcal male), matching the prompt text of
`src/unnamed/part_000`. -/
def minSafeIntake : Gender → ℚ
  | .female => 1200
  | .male => 1500

/-- Result of the plan-realism adjustment: the target intake, the realism
verdict, and the optional recomputed timeline (§4.2 contract). -/
structure AdjustResult where
  target_intake : ℚ
  is_realistic : Bool
  adjusted_weeks : Option ℚ
deriving DecidableEq

/-- Modelled from the spec: the plan-realism adjustment of §4.2,
matching the prompt text of `src/unnamed/part_000` (step 4-5).  The plan
is unrealistic when the needed deficit exceeds 1000 kcal/day or leaves
intake below the safe minimum; in that case the intake is recomputed from
a safe deficit (a parameter in [500, 750], left open by the source) and
the timeline from `gap / (safe_deficit × 7)`. -/
def adjust (tdee deficit_needed gap safe_deficit : ℚ) (g : Gender) : AdjustResult :=
  if 1000 < deficit_needed ∨ tdee - deficit_needed < minSafeIntake g then
    { target_intake := tdee - safe_deficit
      is_realistic := false
      adjusted_weeks := some (gap / (safe_deficit * 7)) }
  else
    { target_intake := tdee - deficit_needed
      is_realistic := true
      adjusted_weeks := none }

/-- Outcome of the external AI call inside `generateAssessmentReport`:
either the response parses into a `ReportData`, or the API call throws
(carrying its message), or `JSON.parse` throws a `SyntaxError`. -/
inductive AIOutcome where
  | success (report : ReportData)
  | apiError (msg : String)
  | parseError (msg : String)

/-- Observable result of `generateAssessmentReport`: a returned value or
a raised (thrown) exception message. -/
inductive ReportOutcome where
  | returned (report : ReportData)
  | raised (msg : String)
deriving DecidableEq

/-- The hard-coded fallback report of `generateAssessmentReport` in
`src/unnamed/part_000` (lines 179-195): zeroed numbers and timeline,
`is_timeline_realistic: true`, no `adjusted_timeline_weeks`, null macro
ranges, zeroed body composition, empty flags and methodology. -/
def fallbackReport : ReportData :=
  { numbers := { current_maintenance_calories := 0
                 daily_calorie_deficit_needed := 0
                 target_intake_kcal := 0
                 target_burn_per_day_activity := 0 }
    timeline := { excess_fat_kg := 0
                  weeks_to_goal := 0
                  projected_loss_per_week_kg := 0
                  is_timeline_realistic := true
                  adjusted_timeline_weeks := none }
    nutrition_targets := { recommended_calories_kcal := 0
                           protein_g := 0
                           water_l := 0
                           carbs_g_range := none
                           fats_g_range := none }
    body_comp := { estimated_bf_percent := 0
                   bf_ideal_band := (0, 0)
                   bf_status := .within
                   visual_analysis_notes := some "Analysis failed."
                   estimated_tbw_percent := 0
                   tbw_typical_band := (0, 0)
                   tbw_status := .within }
    flags := []
    methodology := []
    report_markdown := "⚠️ # Failed to generate report.\n\nThe AI service may be temporarily unavailable or encountered an issue processing your data. Please try again later." }

/-- The control flow of `generateAssessmentReport` in
`src/unnamed/part_000` (lines 174-196): a successfully parsed response is
returned as-is (unvalidated); in the catch block a `SyntaxError` from
`JSON.parse` is re-thrown as `AI_JSON_PARSE_ERROR`, and every other error
yields the fallback report. -/
def generateAssessmentReport : AIOutcome → ReportOutcome
  | .success r => .returned r
  | .apiError _ => .returned fallbackReport
  | .parseError _ =>
      .raised "AI_JSON_PARSE_ERROR: Failed to parse the structured report from the AI."

/-- The control flow of `generateAssessmentReport` in
`src/services/geminiService.ts` (lines 135-138): the catch block logs and
re-throws the original error, so every failure propagates. -/
def generateAssessmentReportV2 : AIOutcome → ReportOutcome
  | .success r => .returned r
  | .apiError m => .raised m
  | .parseError m => .raised m

/-- The invariant claimed of `Timeline` values:
`adjusted_timeline_weeks` is present exactly when
`is_timeline_realistic` is false. -/
def timelineInvariant (t : Timeline) : Prop :=
  t.adjusted_timeline_weeks.isSome = true ↔ t.is_timeline_realistic = false

/-- A syntactically valid `ReportData` an AI response could parse into,
whose timeline has `is_timeline_realistic: true` together with a present
`adjusted_timeline_weeks` (the response schema in `src/unnamed/part_000`
marks neither field required and enforces no dependency between them). -/
def badTimelineReport : ReportData :=
  { fallbackReport with
    timeline := { excess_fat_kg := 5
                  weeks_to_goal := 10
                  projected_loss_per_week_kg := 0.5
                  is_timeline_realistic := true
                  adjusted_timeline_weeks := some 10 } }

/-! Theorems -/

lemma trainerPool_length_pos (goal : Option String) : 0 < (trainerPool goal).length := by
  unfold trainerPool
  cases hgs : goal.bind goalToSpecialty with
  | none => simp [allTrainers]
  | some target =>
      simp only [weightedPool, allTrainers, List.flatMap_cons, List.flatMap_nil,
        List.length_append, List.length_replicate, List.length_nil]
      split_ifs <;> norm_num

lemma floor_index_lt (u : ℚ) (n : ℕ) (h1 : u < 1) (hn : 0 < n) :
    (⌊u * (n : ℚ)⌋).toNat < n := by
  have hnq : (0 : ℚ) < (n : ℚ) := by exact_mod_cast hn
  have h2 : u * (n : ℚ) < (n : ℚ) := by
    calc u * (n : ℚ) < 1 * (n : ℚ) := mul_lt_mul_of_pos_right h1 hnq
    _ = (n : ℚ) := one_mul _
  have h3 : ⌊u * (n : ℚ)⌋ < (n : ℤ) := Int.floor_lt.mpr (by exact_mod_cast h2)
  omega

/-- C9: for every goal (known, unknown or absent) and every value of the
random source in `[0,1)`, `assignTrainer` returns some member of the fixed
three-trainer set; it never returns `undefined`. -/
theorem assignTrainer_total (goal : Option String) (u : ℚ) (h0 : 0 ≤ u) (h1 : u < 1) :
    ∃ t, assignTrainer goal u = some t ∧
      t ∈ [TrainerName.Athul, TrainerName.Athithiya, TrainerName.Saieel] := by
  have hpos := trainerPool_length_pos goal
  have hlt : (⌊u * ((trainerPool goal).length : ℚ)⌋).toNat < (trainerPool goal).length :=
    floor_index_lt u _ h1 hpos
  refine ⟨(trainerPool goal).get ⟨_, hlt⟩, ?_, ?_⟩
  · exact List.getElem?_eq_getElem hlt
  · cases (trainerPool goal).get ⟨_, hlt⟩ <;> simp

/-- Witness for C9 at goal `lose_weight` and random value `1/2`. -/
theorem assignTrainer_total_witness :
    ∃ t, assignTrainer (some "lose_weight") (1/2) = some t ∧
      t ∈ [TrainerName.Athul, TrainerName.Athithiya, TrainerName.Saieel] :=
  assignTrainer_total (some "lose_weight") (1/2) (by norm_num) (by norm_num)

/-- C1 counterexample: with goal `lose_weight`, two trainers (Athul and
Saieel) carry specialist weight 5, so the expanded pool has 5+1+5 = 11
entries, not 7; the claimed probabilities 5/7 and 1/7 are both wrong. -/
theorem trainerDraw_loseWeight_prob_counterexample :
    ¬ (drawProb (trainerPool (some "lose_weight")) .Athul
        + drawProb (trainerPool (some "lose_weight")) .Saieel = 5/7
      ∧ drawProb (trainerPool (some "lose_weight")) .Athithiya = 1/7) := by
  have hc : (trainerPool (some "lose_weight")).count TrainerName.Athithiya = 1 := by decide
  have hl : (trainerPool (some "lose_weight")).length = 11 := by decide
  rintro ⟨-, h⟩
  rw [drawProb, hc, hl] at h
  norm_num at h

/-- C1 (amended): with goal `lose_weight` the weighted pool holds Athul
with multiplicity 5, Athithiya with multiplicity 1 and Saieel with
multiplicity 5 (length 11), so under a uniform draw the "Weight Loss"
specialists are selected with combined probability 10/11 and Athithiya
with probability 1/11. -/
theorem trainerDraw_loseWeight_prob :
    (trainerPool (some "lose_weight")).count .Athul = 5 ∧
    (trainerPool (some "lose_weight")).count .Athithiya = 1 ∧
    (trainerPool (some "lose_weight")).count .Saieel = 5 ∧
    (trainerPool (some "lose_weight")).length = 11 ∧
    drawProb (trainerPool (some "lose_weight")) .Athul
      + drawProb (trainerPool (some "lose_weight")) .Saieel = 10/11 ∧
    drawProb (trainerPool (some "lose_weight")) .Athithiya = 1/11 := by
  have hc1 : (trainerPool (some "lose_weight")).count TrainerName.Athul = 5 := by decide
  have hc2 : (trainerPool (some "lose_weight")).count TrainerName.Athithiya = 1 := by decide
  have hc3 : (trainerPool (some "lose_weight")).count TrainerName.Saieel = 5 := by decide
  have hl : (trainerPool (some "lose_weight")).length = 11 := by decide
  refine ⟨hc1, hc2, hc3, hl, ?_, ?_⟩
  · rw [drawProb, drawProb, hc1, hc3, hl]
    norm_num
  · rw [drawProb, hc2, hl]
    norm_num

/-- C10: in the `src/services/geminiService.ts` variant the goal has no
influence on the selection (the draw ignores it entirely), and each of the
three trainers is selected with probability 1/3 under the uniform draw. -/
theorem assignTrainerV2_uniform_goal_independent :
    (∀ goal₁ goal₂ : Option String, ∀ u : ℚ,
        assignTrainerV2 goal₁ u = assignTrainerV2 goal₂ u) ∧
    (∀ t : TrainerName, drawProb (allTrainers.map Prod.fst) t = 1/3) := by
  constructor
  · intro _ _ _
    rfl
  · have hl : (allTrainers.map Prod.fst).length = 3 := by decide
    intro t
    have hc : (allTrainers.map Prod.fst).count t = 1 := by cases t <;> decide
    rw [drawProb, hc, hl]
    norm_num

/-- C2 counterexample: the Mifflin-St Jeor formula at weight 100 kg,
height 175 cm, age 30, male gives 10·100 + 6.25·175 − 5·30 + 5 = 1948.75,
not the 1748.75 the claim states. -/
theorem bmr_example_counterexample : bmr .male 100 175 30 ≠ 1748.75 := by
  norm_num [bmr]

/-- C2 (amended): for weight 100 kg, height 175 cm, age 30, male,
moderately active (1.55), target 80 kg in 8 weeks: BMR = 1948.75,
TDEE = 3020.5625, excess fat 20 kg, total energy gap 154000 kcal, daily
deficit needed 154000/56 = 2750 kcal, which exceeds 1000 and makes the
plan unrealistic. -/
theorem assessment_example_values :
    bmr .male 100 175 30 = 1948.75 ∧
    tdee .male 100 175 30 .moderately_active = 3020.5625 ∧
    excessFatKg 100 80 = 20 ∧
    totalEnergyGap (excessFatKg 100 80) = 154000 ∧
    dailyDeficitNeeded (totalEnergyGap (excessFatKg 100 80)) 8 = .ok 2750 ∧
    (1000 : ℚ) < 2750 ∧
    (adjust (tdee .male 100 175 30 .moderately_active) 2750 154000 500 .male).is_realistic
      = false := by
  refine ⟨by norm_num [bmr], by norm_num [tdee, bmr, activityMultiplier],
    by norm_num [excessFatKg], by norm_num [totalEnergyGap, excessFatKg], ?_,
    by norm_num, ?_⟩
  · rw [dailyDeficitNeeded, if_neg (by norm_num)]
    norm_num [totalEnergyGap, excessFatKg]
  · rw [adjust, if_pos (Or.inl (by norm_num))]

/-- C3 counterexample: when the AI response fails to parse
(`JSON.parse` throws a `SyntaxError`), `generateAssessmentReport` in
`src/unnamed/part_000` raises `AI_JSON_PARSE_ERROR` instead of returning
the fallback report. -/
theorem report_parseError_raises :
    generateAssessmentReport (.parseError "Unexpected token") ≠ .returned fallbackReport ∧
    generateAssessmentReport (.parseError "Unexpected token") =
      .raised "AI_JSON_PARSE_ERROR: Failed to parse the structured report from the AI." :=
  ⟨by simp [generateAssessmentReport], rfl⟩

/-- C3 (amended): in `src/unnamed/part_000` the API-error path returns
the well-formed fallback report and the success path returns the parsed
report, but the malformed-output path raises `AI_JSON_PARSE_ERROR`; the
`src/services/geminiService.ts` variant propagates every failure. -/
theorem report_failure_paths (m : String) (r : ReportData) :
    generateAssessmentReport (.apiError m) = .returned fallbackReport ∧
    generateAssessmentReport (.success r) = .returned r ∧
    generateAssessmentReport (.parseError m) =
      .raised "AI_JSON_PARSE_ERROR: Failed to parse the structured report from the AI." ∧
    generateAssessmentReportV2 (.apiError m) = .raised m ∧
    generateAssessmentReportV2 (.parseError m) = .raised m :=
  ⟨rfl, rfl, rfl, rfl, rfl⟩

/-- C4: whenever the needed daily deficit (computed over a positive
period) exceeds 1000 kcal, the realism adjustment marks the timeline
unrealistic and produces a present, strictly positive adjusted timeline
(for any safe deficit of at least 500 kcal, as the spec prescribes). -/
theorem deficit_over_1000_unrealistic (tdee_v gap weeks safe d : ℚ) (g : Gender)
    (hsafe : 500 ≤ safe) (hw : 0 < weeks)
    (hd : dailyDeficitNeeded gap weeks = .ok d) (h1000 : 1000 < d) :
    (adjust tdee_v d gap safe g).is_realistic = false ∧
    ∃ w, (adjust tdee_v d gap safe g).adjusted_weeks = some w ∧ 0 < w := by
  rw [dailyDeficitNeeded, if_neg (not_le.mpr hw)] at hd
  have hdval : gap / (weeks * 7) = d := by
    exact Except.ok.inj hd
  have hgap : 0 < gap := by
    have hpos : 0 < gap / (weeks * 7) := by
      rw [hdval]
      linarith
    by_contra hle
    push_neg at hle
    have : gap / (weeks * 7) ≤ 0 := div_nonpos_of_nonpos_of_nonneg hle (by positivity)
    linarith
  rw [adjust, if_pos (Or.inl h1000)]
  refine ⟨rfl, gap / (safe * 7), rfl, ?_⟩
  have hsafe7 : 0 < safe * 7 := by linarith
  exact div_pos hgap hsafe7

/-- Witness for C4 at the worked example (gap 154000 kcal over 8 weeks,
deficit 2750 kcal, safe deficit 500, male). -/
theorem deficit_over_1000_unrealistic_witness :
    (adjust 3020.5625 2750 154000 500 .male).is_realistic = false ∧
    ∃ w, (adjust 3020.5625 2750 154000 500 .male).adjusted_weeks = some w ∧ 0 < w :=
  deficit_over_1000_unrealistic 3020.5625 154000 8 500 2750 .male (by norm_num)
    (by norm_num)
    (by rw [dailyDeficitNeeded, if_neg (by norm_num)]; norm_num)
    (by norm_num)

/-- C5 counterexample: with a safe deficit of 500 (inside the
[500, 750] band of the spec), a female user with TDEE 1500 and a needed deficit of
2000 gets target intake 1500 − 500 = 1000, below the 1200 kcal female
minimum; the adjustment does not enforce the floor. -/
theorem target_intake_min_counterexample :
    ((500 : ℚ) ≤ 500 ∧ (500 : ℚ) ≤ 750) ∧
    (adjust 1500 2000 77000 500 .female).target_intake < minSafeIntake .female := by
  refine ⟨⟨le_refl _, by norm_num⟩, ?_⟩
  rw [adjust, if_pos (Or.inl (by norm_num))]
  norm_num [minSafeIntake]

/-- C5 (amended): the adjusted target intake is at least the
gender-specific minimum safe intake provided the TDEE is at least that
minimum plus the safe deficit; for lower TDEE the unrealistic-branch
intake `tdee − safe_deficit` can fall below the minimum. -/
theorem target_intake_min_of_tdee_large (tdee_v d gap safe : ℚ) (g : Gender)
    (h : minSafeIntake g + safe ≤ tdee_v) :
    minSafeIntake g ≤ (adjust tdee_v d gap safe g).target_intake := by
  rw [adjust]
  split_ifs with hcond
  · simpa using by linarith
  · push_neg at hcond
    have := hcond.2
    simpa using by linarith

/-- Witness for C5 (amended) at the worked example (male, TDEE 3020.5625,
safe deficit 500). -/
theorem target_intake_min_witness :
    minSafeIntake .male ≤ (adjust 3020.5625 2750 154000 500 .male).target_intake :=
  target_intake_min_of_tdee_large 3020.5625 2750 154000 500 .male
    (by norm_num [minSafeIntake])

/-- C6 counterexample: weight 1 kg, height 1 cm, age 100 are all strictly
positive, yet the male BMR is 10 + 6.25 − 500 + 5 = −478.75, so the
sedentary TDEE is −574.5 < 0: positivity of the inputs alone does not
make TDEE positive. -/
theorem tdee_positive_counterexample :
    (0 : ℚ) < 1 ∧ (0 : ℚ) < 1 ∧ (0 : ℚ) < 100 ∧
    ¬ 0 < tdee .male 1 1 100 .sedentary := by
  norm_num [tdee, bmr, activityMultiplier]

/-- C6 (amended): whenever the BMR is positive, the TDEE is positive for
every activity level, and for the fixed BMR the TDEE is strictly
increasing in the activity multiplier. -/
theorem tdee_pos_mono_of_bmr_pos (g : Gender) (w h a : ℚ) (hb : 0 < bmr g w h a) :
    (∀ lv, 0 < tdee g w h a lv) ∧
    ∀ lv₁ lv₂, activityMultiplier lv₁ < activityMultiplier lv₂ →
      tdee g w h a lv₁ < tdee g w h a lv₂ := by
  constructor
  · intro lv
    have hm : 0 < activityMultiplier lv := by
      cases lv <;> norm_num [activityMultiplier]
    exact mul_pos hb hm
  · intro lv₁ lv₂ hm
    exact mul_lt_mul_of_pos_left hm hb

/-- Witness for C6 (amended) at the worked example (male, 100 kg, 175 cm,
age 30): BMR is positive, the sedentary TDEE is positive, and TDEE grows
from sedentary to very active. -/
theorem tdee_pos_mono_witness :
    0 < tdee .male 100 175 30 .sedentary ∧
    tdee .male 100 175 30 .sedentary < tdee .male 100 175 30 .very_active := by
  have H := tdee_pos_mono_of_bmr_pos .male 100 175 30 (by norm_num [bmr])
  exact ⟨H.1 .sedentary, H.2 .sedentary .very_active (by norm_num [activityMultiplier])⟩

/-- C7 counterexample: a parsed AI response whose timeline has
`is_timeline_realistic = true` together with a present
`adjusted_timeline_weeks` is returned by the core as-is, violating the
claimed presence-iff-unrealistic invariant. -/
theorem timeline_invariant_counterexample :
    generateAssessmentReport (.success badTimelineReport) = .returned badTimelineReport ∧
    ¬ timelineInvariant badTimelineReport.timeline :=
  ⟨rfl, by simp [timelineInvariant, badTimelineReport]⟩

/-- C7 (amended): the timeline the core builds itself — the error-path
fallback report — satisfies the invariant (`is_timeline_realistic` is
true and `adjusted_timeline_weeks` is absent); timelines parsed from AI
output are passed through unvalidated. -/
theorem fallback_timeline_invariant : timelineInvariant fallbackReport.timeline := by
  simp [timelineInvariant, fallbackReport]

/-- C8: the daily-deficit computation fails with `InvalidPeriod` exactly
when the target period is nonpositive, and otherwise yields
`total_energy_gap / (target_period_weeks × 7)`. -/
theorem dailyDeficit_invalidPeriod_spec (gap weeks : ℚ) :
    (weeks ≤ 0 → dailyDeficitNeeded gap weeks = .error .InvalidPeriod) ∧
    (0 < weeks → dailyDeficitNeeded gap weeks = .ok (gap / (weeks * 7))) := by
  constructor
  · intro h
    rw [dailyDeficitNeeded, if_pos h]
  · intro h
    rw [dailyDeficitNeeded, if_neg (not_le.mpr h)]

/-- Witness for C8: a zero-week period fails with `InvalidPeriod`, and
the worked example succeeds with 154000 / 56 = 2750. -/
theorem dailyDeficit_invalidPeriod_witness :
    dailyDeficitNeeded 154000 0 = .error .InvalidPeriod ∧
    dailyDeficitNeeded 154000 8 = .ok 2750 := by
  refine ⟨(dailyDeficit_invalidPeriod_spec 154000 0).1 (by norm_num), ?_⟩
  rw [(dailyDeficit_invalidPeriod_spec 154000 8).2 (by norm_num)]
  norm_num

end IFitBot
